import Mathlib

/-!
Verification development for the thermodynamics module of a cosmological
Boltzmann code (source file `src/source/thermodynamics.c`).

The definitions below are a shallow embedding of the C code: C doubles are
modelled as elements of a linear ordered field (instantiated at `ℝ` for the
theorems, and at `ℚ` whenever a witness evaluates a run on concrete input);
transcendental operations (`exp`, `log`, `sqrt`, `pow` with non-integer
exponent) force the corresponding definitions to live over `ℝ`.
Fallible code (`class_test` / `class_stop` error exits) is modelled with
`Option` / sum-like result types.  Each definition carries a reference to the
C function and line range it embeds.
-/

namespace ClassThermo

/-! ## Parameter tests (`thermodynamics_test_parameters`, lines 414-428)

The C macro `class_test(cond, msg)` aborts initialization with an error
message exactly when `cond` evaluates to true.  The test guarding
`thermo_z_initial` (lines 422-425) is

  class_test(-ppr->thermo_z_initial > ppr->recfast_z_He_3, ...,
             "increase zinitial, as it is after HeliumIII recombination starts.");

We embed the fired/not-fired boolean of that condition verbatim. -/

/-- Embedding of the condition of the `class_test` at thermodynamics.c:423:
the domain-error exit for `thermo_z_initial` fires iff
`-thermo_z_initial > recfast_z_He_3`. -/
def zinitial_test_fires {α : Type} [LinearOrderedField α]
    (thermo_z_initial recfast_z_He_3 : α) : Bool :=
  decide (-thermo_z_initial > recfast_z_He_3)

/-! ## Reionization sentinel values
(`thermodynamics_set_parameters_reionization`, lines 3148-3173 for
`reio_many_tanh` and lines 3262-3283 for `reio_inter`)

Both loops run the same cascade on each user-supplied `xe` entry:

    if (xe_input >= 0.)                          xe_actual = xe_input;
    else if ((xe_input<-0.9) && (xe_input>-1.1)) xe_actual = 1.+YHe/(_not4_*(1.-YHe));
    else if ((xe_input<-1.9) && (xe_input>-2.1)) xe_actual = 1.+2.*YHe/(_not4_*(1.-YHe));
    else                                         class_stop(...);

`_not4_` is a numeric constant defined outside `src/` (the helium-to-hydrogen
mass ratio, which the specification's glossary denotes `m_H/m_He`); we keep it
as an explicit parameter `not4`.  `class_stop` aborts initialization, modelled
by `none`. -/

/-- Embedding of the per-entry sentinel cascade shared by the `reio_many_tanh`
loop (thermodynamics.c:3153-3173) and the `reio_inter` loop
(thermodynamics.c:3263-3283).  Returns `none` exactly when the C code reaches
`class_stop` and initialization fails. -/
def reio_xe_actual {α : Type} [LinearOrderedField α]
    (YHe not4 xe_input : α) : Option α :=
  if xe_input ≥ 0 then some xe_input
  else if xe_input < -0.9 ∧ xe_input > -1.1 then
    some (1 + YHe / (not4 * (1 - YHe)))
  else if xe_input < -1.9 ∧ xe_input > -2.1 then
    some (1 + 2 * YHe / (not4 * (1 - YHe)))
  else none

/-- Statement of claim C9 taken from the specification's words: values in the
open interval `(-1.1, -0.9)` expand to the post-first-He-reionization level,
values in `(-2.1, -1.9)` to the post-second-He-reionization level, nonnegative
values are copied unchanged, and any other negative value aborts
initialization. -/
def reio_xe_actual_spec {α : Type} [LinearOrderedField α]
    (YHe not4 xe_input : α) : Option α :=
  if -1.1 < xe_input ∧ xe_input < -0.9 then
    some (1 + YHe / (not4 * (1 - YHe)))
  else if -2.1 < xe_input ∧ xe_input < -1.9 then
    some (1 + 2 * YHe / (not4 * (1 - YHe)))
  else if 0 ≤ xe_input then some xe_input
  else none

/-! ## Theorems -/

/-- C6: the specification demands that initialization fail whenever
`thermo_z_initial` is not larger than `recfast_z_He_3`; the C test at
thermodynamics.c:423 compares `-thermo_z_initial > recfast_z_He_3` instead,
which is false for every positive `thermo_z_initial` and nonnegative
`recfast_z_He_3`, so the domain-error exit never fires and the compute phase
starts regardless of how small `z_initial` is.  This contradicts the test's
own error message ("increase zinitial, as it is after HeliumIII recombination
starts"). -/
theorem C6_zinitial_test_never_fires (zinitial zHe3 : ℝ)
    (hz : 0 < zinitial) (hHe : 0 ≤ zHe3) :
    zinitial_test_fires zinitial zHe3 = false := by
  unfold zinitial_test_fires
  exact decide_eq_false (by simp only [gt_iff_lt, not_lt]; linarith)

/-- Witness for C6 at the failing input of the claim: `thermo_z_initial = 4000`
is below `recfast_z_He_3 = 5000`, yet the embedded test does not fire, so no
domain error is raised. -/
theorem C6_zinitial_test_never_fires_witness :
    (0:ℝ) < 4000 ∧ (0:ℝ) ≤ 5000 ∧
      zinitial_test_fires (4000:ℝ) (5000:ℝ) = false :=
  ⟨by norm_num, by norm_num,
    C6_zinitial_test_never_fires 4000 5000 (by norm_num) (by norm_num)⟩

/-- C9: the sentinel cascade of `thermodynamics_set_parameters_reionization`
(shared by the `reio_many_tanh` and `reio_inter` loops) agrees with the
case analysis stated in the claim: entries in `(-1.1,-0.9)` become
`1 + YHe/(not4*(1-YHe))`, entries in `(-2.1,-1.9)` become
`1 + 2*YHe/(not4*(1-YHe))`, nonnegative entries are copied, and every other
negative entry makes initialization fail (`none`).  Here `not4` is the
`_not4_` mass-ratio constant, called `m_H/m_He` by the specification. -/
theorem C9_reio_xe_actual_eq_spec {α : Type} [LinearOrderedField α]
    (YHe not4 xe_input : α) :
    reio_xe_actual YHe not4 xe_input = reio_xe_actual_spec YHe not4 xe_input := by
  unfold reio_xe_actual reio_xe_actual_spec
  by_cases h0 : xe_input ≥ 0
  · rw [if_pos h0, if_neg (by rintro ⟨-, h⟩; linarith),
      if_neg (by rintro ⟨-, h⟩; linarith), if_pos h0]
  · rw [if_neg h0]
    by_cases h1 : xe_input < -0.9 ∧ xe_input > -1.1
    · rw [if_pos h1, if_pos ⟨h1.2, h1.1⟩]
    · rw [if_neg h1]
      by_cases h2 : xe_input < -1.9 ∧ xe_input > -2.1
      · rw [if_pos h2, if_neg (fun h => h1 ⟨h.2, h.1⟩), if_pos ⟨h2.2, h2.1⟩]
      · rw [if_neg h2, if_neg (fun h => h1 ⟨h.2, h.1⟩),
          if_neg (fun h => h2 ⟨h.2, h.1⟩), if_neg h0]

/-! ## Redshift grid (`thermodynamics_lists`, lines 554-597)

The grid sizes come from lines 2741-2745:
`Nz_reco = Nz_reco_lin + Nz_reco_log`, `Nz_tot = Nz_reio + Nz_reco`, and
`tt_size = Nz_tot`.  The three loops at lines 573-583 fill `z_table`:

    for (iz = 0; iz < Nz_reco_log; iz++)
      z_table[(tt_size-1) - iz]             = exp((log(zinitial)-log(zlinear))
                                              * (Nz_reco_log-1-iz)/(Nz_reco_log-1) + log(zlinear));
    for (iz = 0; iz < Nz_reco_lin; iz++)
      z_table[(tt_size-1) - (iz+Nz_reco_log)] = (zlinear - z_start_max)
                                              * (Nz_reco_lin-1-iz)/Nz_reco_lin + z_start_max;
    for (iz = 0; iz < Nz_reio; iz++)
      z_table[(tt_size-1) - (iz+Nz_reco)]   = z_start_max * (Nz_reio-1-iz)/Nz_reio;

(the C source wraps each right-hand side in a no-op double negation
`-(-x)`, dropped here).  We embed `z_table` as a function of the array slot
`i`; the slot written by loop counter `iz` is recovered by inverting the
index expressions above. -/

/-- Grid parameters of `thermodynamics_lists`: `ppr->thermo_z_initial`,
`ppr->thermo_z_linear`, `ppr->reionization_z_start_max` and the three
sub-grid sizes from the thermo workspace. -/
structure GridParams where
  zinitial : ℝ
  zlinear : ℝ
  z_start_max : ℝ
  Nz_reco_log : ℕ
  Nz_reco_lin : ℕ
  Nz_reio : ℕ

/-- Embedding of `ptw->Nz_reco = ptw->Nz_reco_lin + ptw->Nz_reco_log`
(thermodynamics.c:2744). -/
def GridParams.Nz_reco (p : GridParams) : ℕ := p.Nz_reco_lin + p.Nz_reco_log

/-- Embedding of `ptw->Nz_tot = ptw->Nz_reio + ptw->Nz_reco`
(thermodynamics.c:2745); equals `pth->tt_size` (line 561). -/
def GridParams.Nz_tot (p : GridParams) : ℕ := p.Nz_reio + p.Nz_reco

/-- Value written by the logarithmic-segment loop (thermodynamics.c:574) at
loop counter `iz`. -/
noncomputable def log_seg_val (p : GridParams) (iz : ℕ) : ℝ :=
  Real.exp ((Real.log p.zinitial - Real.log p.zlinear) *
    ((p.Nz_reco_log - 1 - iz : ℕ) : ℝ) / ((p.Nz_reco_log - 1 : ℕ) : ℝ) +
    Real.log p.zlinear)

/-- Value written by the linear recombination-segment loop
(thermodynamics.c:578) at loop counter `iz`. -/
noncomputable def lin_seg_val (p : GridParams) (iz : ℕ) : ℝ :=
  (p.zlinear - p.z_start_max) * ((p.Nz_reco_lin - 1 - iz : ℕ) : ℝ) /
    (p.Nz_reco_lin : ℝ) + p.z_start_max

/-- Value written by the reionization-segment loop (thermodynamics.c:582) at
loop counter `iz`. -/
noncomputable def reio_seg_val (p : GridParams) (iz : ℕ) : ℝ :=
  p.z_start_max * ((p.Nz_reio - 1 - iz : ℕ) : ℝ) / (p.Nz_reio : ℝ)

/-- The frozen redshift grid `pth->z_table` as a function of the array slot
`i`, obtained by inverting the slot expressions of the three loops: slot
`(tt_size-1)-(iz+Nz_reco)` for the reionization loop (slots `< Nz_reio`),
slot `(tt_size-1)-(iz+Nz_reco_log)` for the linear loop
(slots in `[Nz_reio, Nz_reio+Nz_reco_lin)`), and slot `(tt_size-1)-iz` for
the logarithmic loop (the remaining top slots). -/
noncomputable def z_table (p : GridParams) (i : ℕ) : ℝ :=
  if i < p.Nz_reio then reio_seg_val p (p.Nz_tot - 1 - i - p.Nz_reco)
  else if i < p.Nz_reio + p.Nz_reco_lin then
    lin_seg_val p (p.Nz_tot - 1 - i - p.Nz_reco_log)
  else log_seg_val p (p.Nz_tot - 1 - i)

lemma z_table_reio (p : GridParams) (i : ℕ) (hi : i < p.Nz_reio) :
    z_table p i = p.z_start_max * (i : ℝ) / (p.Nz_reio : ℝ) := by
  have h1 : p.Nz_tot - 1 - i - p.Nz_reco = p.Nz_reio - 1 - i := by
    unfold GridParams.Nz_tot GridParams.Nz_reco; omega
  have h2 : p.Nz_reio - 1 - (p.Nz_reio - 1 - i) = i := by omega
  unfold z_table
  rw [if_pos hi, h1]
  unfold reio_seg_val
  rw [h2]

lemma z_table_lin (p : GridParams) (i : ℕ) (hlo : p.Nz_reio ≤ i)
    (hhi : i < p.Nz_reio + p.Nz_reco_lin) :
    z_table p i = (p.zlinear - p.z_start_max) * ((i - p.Nz_reio : ℕ) : ℝ) /
      (p.Nz_reco_lin : ℝ) + p.z_start_max := by
  have h1 : p.Nz_tot - 1 - i - p.Nz_reco_log = p.Nz_reco_lin - 1 - (i - p.Nz_reio) := by
    unfold GridParams.Nz_tot GridParams.Nz_reco; omega
  have h2 : p.Nz_reco_lin - 1 - (p.Nz_reco_lin - 1 - (i - p.Nz_reio)) = i - p.Nz_reio := by
    omega
  unfold z_table
  rw [if_neg (by omega), if_pos hhi, h1]
  unfold lin_seg_val
  rw [h2]

lemma z_table_log (p : GridParams) (i : ℕ) (hlo : p.Nz_reio + p.Nz_reco_lin ≤ i)
    (hhi : i < p.Nz_tot) :
    z_table p i = Real.exp ((Real.log p.zinitial - Real.log p.zlinear) *
      ((i - (p.Nz_reio + p.Nz_reco_lin) : ℕ) : ℝ) / ((p.Nz_reco_log - 1 : ℕ) : ℝ) +
      Real.log p.zlinear) := by
  have hhi2 : i < p.Nz_reio + p.Nz_reco_lin + p.Nz_reco_log := by
    have := hhi; unfold GridParams.Nz_tot GridParams.Nz_reco at this; omega
  have h1 : p.Nz_reco_log - 1 - (p.Nz_tot - 1 - i) = i - (p.Nz_reio + p.Nz_reco_lin) := by
    unfold GridParams.Nz_tot GridParams.Nz_reco; omega
  unfold z_table
  rw [if_neg (by omega), if_neg (by omega)]
  unfold log_seg_val
  rw [h1]

/-- Chaining a pointwise adjacent increase into full strict monotonicity on an
initial segment. -/
lemma lt_of_forall_succ_lt (f : ℕ → ℝ) (N : ℕ)
    (h : ∀ i, i + 1 < N → f i < f (i + 1)) :
    ∀ i j, i < j → j < N → f i < f j := by
  intro i j hij hjN
  induction j with
  | zero => omega
  | succ k ih =>
    rcases Nat.lt_succ_iff_lt_or_eq.mp hij with h1 | h1
    · exact lt_trans (ih h1 (by omega)) (h k hjN)
    · subst h1; exact h i hjN

lemma z_table_lt_succ (p : GridParams)
    (h0 : 0 < p.z_start_max) (h1 : p.z_start_max < p.zlinear)
    (h2 : p.zlinear < p.zinitial)
    (hlog : 2 ≤ p.Nz_reco_log) (hlin : 1 ≤ p.Nz_reco_lin) (hreio : 1 ≤ p.Nz_reio) :
    ∀ i, i + 1 < p.Nz_tot → z_table p i < z_table p (i + 1) := by
  have hzl : (0:ℝ) < p.zlinear := lt_trans h0 h1
  have hNreio : (0:ℝ) < (p.Nz_reio : ℝ) := by exact_mod_cast hreio
  have hNlin : (0:ℝ) < (p.Nz_reco_lin : ℝ) := by exact_mod_cast hlin
  have hNlog : (0:ℝ) < ((p.Nz_reco_log - 1 : ℕ) : ℝ) := by
    have h : 0 < p.Nz_reco_log - 1 := by omega
    exact_mod_cast h
  have hloggt : 0 < Real.log p.zinitial - Real.log p.zlinear :=
    sub_pos.mpr (Real.log_lt_log hzl h2)
  intro i hi
  rcases lt_trichotomy (i + 1) p.Nz_reio with hc | hc | hc
  · -- both slots lie in the reionization segment
    rw [z_table_reio p i (by omega), z_table_reio p (i+1) hc]
    rw [div_lt_div_iff_of_pos_right hNreio]
    push_cast
    nlinarith
  · -- boundary: last reionization slot against first linear slot
    rw [z_table_reio p i (by omega), z_table_lin p (i+1) (by omega) (by omega)]
    have e0 : ((i + 1 - p.Nz_reio : ℕ) : ℝ) = 0 := by
      have h : i + 1 - p.Nz_reio = 0 := by omega
      rw [h]; norm_num
    rw [e0, mul_zero, zero_div, zero_add, div_lt_iff₀ hNreio]
    have hiN : (i : ℝ) < (p.Nz_reio : ℝ) := by exact_mod_cast (by omega : i < p.Nz_reio)
    nlinarith
  · rcases lt_trichotomy (i + 1) (p.Nz_reio + p.Nz_reco_lin) with hd | hd | hd
    · -- both slots lie in the linear recombination segment
      rw [z_table_lin p i (by omega) (by omega), z_table_lin p (i+1) (by omega) hd]
      have e1 : ((i + 1 - p.Nz_reio : ℕ) : ℝ) = ((i - p.Nz_reio : ℕ) : ℝ) + 1 := by
        have h : i + 1 - p.Nz_reio = (i - p.Nz_reio) + 1 := by omega
        rw [h]; push_cast; ring
      rw [e1]
      have key : (p.zlinear - p.z_start_max) * ((i - p.Nz_reio : ℕ) : ℝ) /
          (p.Nz_reco_lin : ℝ) <
          (p.zlinear - p.z_start_max) * (((i - p.Nz_reio : ℕ) : ℝ) + 1) /
          (p.Nz_reco_lin : ℝ) := by
        rw [div_lt_div_iff_of_pos_right hNlin]
        nlinarith
      linarith
    · -- boundary: last linear slot against first logarithmic slot
      rw [z_table_lin p i (by omega) (by omega), z_table_log p (i+1) (by omega) hi]
      have e0 : ((i + 1 - (p.Nz_reio + p.Nz_reco_lin) : ℕ) : ℝ) = 0 := by
        have h : i + 1 - (p.Nz_reio + p.Nz_reco_lin) = 0 := by omega
        rw [h]; norm_num
      rw [e0, mul_zero, zero_div, zero_add, Real.exp_log hzl]
      have hx : ((i - p.Nz_reio : ℕ) : ℝ) < (p.Nz_reco_lin : ℝ) := by
        exact_mod_cast (by omega : i - p.Nz_reio < p.Nz_reco_lin)
      have key : (p.zlinear - p.z_start_max) * ((i - p.Nz_reio : ℕ) : ℝ) /
          (p.Nz_reco_lin : ℝ) < p.zlinear - p.z_start_max := by
        rw [div_lt_iff₀ hNlin]
        nlinarith
      linarith
    · -- both slots lie in the logarithmic segment
      rw [z_table_log p i (by omega) (by omega), z_table_log p (i+1) (by omega) hi]
      apply Real.exp_lt_exp.mpr
      have e1 : ((i + 1 - (p.Nz_reio + p.Nz_reco_lin) : ℕ) : ℝ) =
          ((i - (p.Nz_reio + p.Nz_reco_lin) : ℕ) : ℝ) + 1 := by
        have h : i + 1 - (p.Nz_reio + p.Nz_reco_lin) =
            (i - (p.Nz_reio + p.Nz_reco_lin)) + 1 := by omega
        rw [h]; push_cast; ring
      rw [e1]
      have key : (Real.log p.zinitial - Real.log p.zlinear) *
          ((i - (p.Nz_reio + p.Nz_reco_lin) : ℕ) : ℝ) / ((p.Nz_reco_log - 1 : ℕ) : ℝ) <
          (Real.log p.zinitial - Real.log p.zlinear) *
          (((i - (p.Nz_reio + p.Nz_reco_lin) : ℕ) : ℝ) + 1) /
          ((p.Nz_reco_log - 1 : ℕ) : ℝ) := by
        rw [div_lt_div_iff_of_pos_right hNlog]
        nlinarith
      linarith

/-- Sample grid configuration used for the C1 counterexample and witness:
`zinitial = 100`, `zlinear = 10`, `reionization_z_start_max = 4`, two points
per sub-grid. -/
def gridSmall : GridParams := ⟨100, 10, 4, 2, 2, 2⟩

/-- C1, counterexample: the claim asserts `z_table[i] > z_table[j]` for every
pair of indices `i < j` (decreasing order with today at index 0).  On the
grid built by `thermodynamics_lists` this fails already at `i = 0`, `j = 1`:
slot 0 holds `z = 0` (today) and slot 1 holds a larger redshift, because the
loops store the grid in increasing-`z` order. -/
theorem C1_z_table_decreasing_counterexample :
    (0:ℕ) < 1 ∧ 1 < gridSmall.Nz_tot ∧
      ¬ (z_table gridSmall 0 > z_table gridSmall 1) := by
  refine ⟨Nat.zero_lt_one, by decide, ?_⟩
  have h0 : z_table gridSmall 0 = 0 := by
    rw [z_table_reio gridSmall 0 (by decide)]
    norm_num
  have h1 : z_table gridSmall 1 = 2 := by
    rw [z_table_reio gridSmall 1 (by decide)]
    show (4:ℝ) * (1:ℕ) / (2:ℕ) = 2
    norm_num
  rw [h0, h1]
  norm_num

/-- C1, amended: the frozen redshift grid is strictly INCREASING in array
order (the claim said decreasing), with index 0 holding today (`z = 0`) and
the last index holding `z_initial`: for every pair of indices `i < j` in
`z_table`, `z_table[i] < z_table[j]`.  Hypotheses: the configured boundaries
satisfy `0 < z_start_max < z_linear < z_initial` and each sub-grid has its
minimal size (the log segment formula divides by `Nz_reco_log - 1`). -/
theorem C1_z_table_strictly_increasing (p : GridParams)
    (h0 : 0 < p.z_start_max) (h1 : p.z_start_max < p.zlinear)
    (h2 : p.zlinear < p.zinitial)
    (hlog : 2 ≤ p.Nz_reco_log) (hlin : 1 ≤ p.Nz_reco_lin) (hreio : 1 ≤ p.Nz_reio) :
    z_table p 0 = 0 ∧ z_table p (p.Nz_tot - 1) = p.zinitial ∧
      ∀ i j, i < j → j < p.Nz_tot → z_table p i < z_table p j := by
  have hzl : (0:ℝ) < p.zlinear := lt_trans h0 h1
  have hzi : (0:ℝ) < p.zinitial := lt_trans hzl h2
  refine ⟨?_, ?_, ?_⟩
  · rw [z_table_reio p 0 (by omega)]
    norm_num
  · have hlast : p.Nz_reio + p.Nz_reco_lin ≤ p.Nz_tot - 1 := by
      unfold GridParams.Nz_tot GridParams.Nz_reco; omega
    have hlast2 : p.Nz_tot - 1 < p.Nz_tot := by
      unfold GridParams.Nz_tot GridParams.Nz_reco; omega
    rw [z_table_log p (p.Nz_tot - 1) hlast hlast2]
    have hk : p.Nz_tot - 1 - (p.Nz_reio + p.Nz_reco_lin) = p.Nz_reco_log - 1 := by
      unfold GridParams.Nz_tot GridParams.Nz_reco; omega
    rw [hk]
    have hNlog : ((p.Nz_reco_log - 1 : ℕ) : ℝ) ≠ 0 := by
      have h : 0 < p.Nz_reco_log - 1 := by omega
      exact_mod_cast Nat.pos_iff_ne_zero.mp h
    rw [mul_div_assoc, div_self hNlog, mul_one, sub_add_cancel, Real.exp_log hzi]
  · exact lt_of_forall_succ_lt (z_table p) p.Nz_tot
      (z_table_lt_succ p h0 h1 h2 hlog hlin hreio)

/-- Witness for the amended C1 theorem: the hypotheses hold for the concrete
grid `gridSmall`, and the theorem applies there. -/
theorem C1_z_table_strictly_increasing_witness :
    ((0:ℝ) < gridSmall.z_start_max ∧ gridSmall.z_start_max < gridSmall.zlinear ∧
      gridSmall.zlinear < gridSmall.zinitial ∧ 2 ≤ gridSmall.Nz_reco_log ∧
      1 ≤ gridSmall.Nz_reco_lin ∧ 1 ≤ gridSmall.Nz_reio) ∧
    (z_table gridSmall 0 = 0 ∧
      z_table gridSmall (gridSmall.Nz_tot - 1) = gridSmall.zinitial ∧
      ∀ i j, i < j → j < gridSmall.Nz_tot →
        z_table gridSmall i < z_table gridSmall j) :=
  ⟨⟨by norm_num [gridSmall], by norm_num [gridSmall], by norm_num [gridSmall],
      by norm_num [gridSmall], by norm_num [gridSmall], by norm_num [gridSmall]⟩,
    C1_z_table_strictly_increasing gridSmall
      (by norm_num [gridSmall]) (by norm_num [gridSmall]) (by norm_num [gridSmall])
      (by norm_num [gridSmall]) (by norm_num [gridSmall]) (by norm_num [gridSmall])⟩

/-! ## Interpolation query (`thermodynamics_at_z`, lines 94-237)

The query dispatches on the redshift and the reionization scheme:

    if (z >= pth->z_table[pth->tt_size-1]) { ... analytic extrapolation ... }
    else {
      if (((pth->reio_parametrization == reio_half_tanh) && (z < 2*pth->z_reio))
          || ((pth->reio_parametrization == reio_inter) && (z < 50.)))
        array_interpolate_linear(...);
      else {
        if (inter_mode == pth->inter_normal)  array_interpolate_spline(...);
        if (inter_mode == pth->inter_closeby) array_interpolate_spline_growing_closeby(...);
      }
    }
-/

/-- The reionization parametrization tag (`enum reionization_parametrization`). -/
inductive ReioScheme where
  | reio_none | reio_camb | reio_half_tanh | reio_bins_tanh | reio_many_tanh | reio_inter
deriving DecidableEq

/-- Cursor mode of the interpolation query: `pth->inter_normal = 0` or
`pth->inter_closeby = 1` (thermodynamics.c:548-549). -/
inductive InterMode where
  | normal | closeby
deriving DecidableEq

/-- Which of the four code paths of `thermodynamics_at_z` serves the query. -/
inductive AtZBranch where
  | extrapolation | linear_interp | spline_normal | spline_closeby
deriving DecidableEq

/-- Embedding of the dispatch structure of `thermodynamics_at_z`
(thermodynamics.c:116, 181-182, 200, 216).  `z_last` is
`pth->z_table[pth->tt_size-1]`.  The two successive equality tests on
`inter_mode` in the C code are an exhaustive two-way case split, rendered here
as if/else. -/
def thermodynamics_at_z_branch {α : Type} [LinearOrderedField α]
    (reio_parametrization : ReioScheme) (z_reio z_last : α)
    (inter_mode : InterMode) (z : α) : AtZBranch :=
  if z ≥ z_last then AtZBranch.extrapolation
  else if (reio_parametrization = ReioScheme.reio_half_tanh ∧ z < 2 * z_reio)
      ∨ (reio_parametrization = ReioScheme.reio_inter ∧ z < 50) then
    AtZBranch.linear_interp
  else if inter_mode = InterMode.normal then AtZBranch.spline_normal
  else AtZBranch.spline_closeby

/-- Background quantities read from `pvecback` by the extrapolation branch:
`index_bg_H`, `index_bg_H_prime`, `index_bg_a`. -/
structure BackgroundShort where
  H : ℝ
  Hprime : ℝ
  a : ℝ

/-- Scalar inputs of the extrapolation branch of `thermodynamics_at_z`:
the last grid point `z_table[tt_size-1]`, the last table row's `x_e`,
`tau_d` and `r_d` entries, `pth->n_e`, the physical constants `_sigma_`,
`_Mpc_over_m_`, `_k_B_`, `_c_`, `_m_H_`, `_not4_`, `pba->T_cmb`, `pth->YHe`,
and the two column flags. -/
structure ExtrapParams where
  z_last : ℝ
  xe_last : ℝ
  tau_d_last : ℝ
  r_d_last : ℝ
  n_e : ℝ
  sigma_T : ℝ
  Mpc_over_m : ℝ
  Tcmb : ℝ
  YHe : ℝ
  k_B : ℝ
  c_light : ℝ
  m_H : ℝ
  not4 : ℝ
  compute_damping_scale : Bool
  compute_cb2_derivatives : Bool

/-- The output vector written by the extrapolation branch.  Entries that the
branch writes only under a flag (`r_d`, `dcb2`, `ddcb2`) are `Option`-valued:
`none` models "slot left untouched". -/
structure ExtrapVec where
  xe : ℝ
  dkappa : ℝ
  ddkappa : ℝ
  dddkappa : ℝ
  exp_m_kappa : ℝ
  g : ℝ
  dg : ℝ
  ddg : ℝ
  Tb : ℝ
  cb2 : ℝ
  tau_d : ℝ
  rate : ℝ
  r_d : Option ℝ
  dcb2 : Option ℝ
  ddcb2 : Option ℝ

/-- Embedding of the extrapolation branch of `thermodynamics_at_z`
(thermodynamics.c:116-172), assignment by assignment. -/
noncomputable def thermodynamics_at_z_extrapolation (p : ExtrapParams)
    (bg : BackgroundShort) (z : ℝ) : ExtrapVec :=
  let x0 := p.xe_last
  let dkappa := (1 + z) * (1 + z) * p.n_e * x0 * p.sigma_T * p.Mpc_over_m
  let cb2 := p.k_B / (p.c_light * p.c_light * p.m_H) *
      (1 + (1/p.not4 - 1) * p.YHe + x0 * (1 - p.YHe)) * p.Tcmb * (1 + z) * 4 / 3
  { xe := x0
    dkappa := dkappa
    tau_d := p.tau_d_last * ((1 + z)/(1 + p.z_last))^(2:ℕ)
    r_d := if p.compute_damping_scale then
        some (p.r_d_last * ((1 + z)/(1 + p.z_last)) ^ (-1.5 : ℝ)) else none
    ddkappa := -bg.H * 2 / (1 + z) * dkappa
    dddkappa := (bg.H * bg.H / (1 + z) - bg.Hprime) * 2 / (1 + z) * dkappa
    exp_m_kappa := 0
    g := 0
    dg := 0
    ddg := 0
    Tb := p.Tcmb * (1 + z)
    cb2 := cb2
    dcb2 := if p.compute_cb2_derivatives then some (-bg.H * bg.a * cb2) else none
    ddcb2 := if p.compute_cb2_derivatives then some (-bg.Hprime * bg.a * cb2) else none
    rate := dkappa }

/-- C2: above the tabulated range the query returns the asymptotic values
listed in the claim: frozen `x_e`; `dkappa = (1+z)^2 n_e x_e sigma_T (Mpc/m)`;
`tau_d` scaled by `((1+z)/(1+z_last))^2`; when the damping scale is computed,
`r_d` scaled by `((1+z)/(1+z_last))^(-3/2)`; the stated `d2kappa/dtau2` and
`d3kappa/dtau3`; vanishing `exp(-kappa)`, `g`, `dg`, `ddg`;
`T_b = T_cmb (1+z)`; `c_b^2` equal to a z-independent coefficient times
`(1+z)`; and `rate = dkappa/dtau`. -/
theorem C2_at_z_asymptotic (p : ExtrapParams) (bg : BackgroundShort) (z : ℝ)
    (hflag : p.compute_damping_scale = true) :
    (thermodynamics_at_z_extrapolation p bg z).xe = p.xe_last ∧
    (thermodynamics_at_z_extrapolation p bg z).dkappa =
      (1 + z)^(2:ℕ) * p.n_e * p.xe_last * p.sigma_T * p.Mpc_over_m ∧
    (thermodynamics_at_z_extrapolation p bg z).tau_d =
      p.tau_d_last * ((1 + z)/(1 + p.z_last))^(2:ℕ) ∧
    (thermodynamics_at_z_extrapolation p bg z).r_d =
      some (p.r_d_last * ((1 + z)/(1 + p.z_last)) ^ (-(3/2) : ℝ)) ∧
    (thermodynamics_at_z_extrapolation p bg z).ddkappa =
      -bg.H * (2/(1 + z)) * (thermodynamics_at_z_extrapolation p bg z).dkappa ∧
    (thermodynamics_at_z_extrapolation p bg z).dddkappa =
      (bg.H^(2:ℕ)/(1 + z) - bg.Hprime) * (2/(1 + z)) *
        (thermodynamics_at_z_extrapolation p bg z).dkappa ∧
    (thermodynamics_at_z_extrapolation p bg z).exp_m_kappa = 0 ∧
    (thermodynamics_at_z_extrapolation p bg z).g = 0 ∧
    (thermodynamics_at_z_extrapolation p bg z).dg = 0 ∧
    (thermodynamics_at_z_extrapolation p bg z).ddg = 0 ∧
    (thermodynamics_at_z_extrapolation p bg z).Tb = p.Tcmb * (1 + z) ∧
    (thermodynamics_at_z_extrapolation p bg z).cb2 =
      (p.k_B / (p.c_light * p.c_light * p.m_H) *
        (1 + (1/p.not4 - 1) * p.YHe + p.xe_last * (1 - p.YHe)) * p.Tcmb * 4 / 3) *
        (1 + z) ∧
    (thermodynamics_at_z_extrapolation p bg z).rate =
      (thermodynamics_at_z_extrapolation p bg z).dkappa := by
  refine ⟨rfl, ?_, rfl, ?_, ?_, ?_, rfl, rfl, rfl, rfl, rfl, ?_, rfl⟩
  · simp only [thermodynamics_at_z_extrapolation]; ring
  · simp only [thermodynamics_at_z_extrapolation, hflag, if_true]
    norm_num
  · simp only [thermodynamics_at_z_extrapolation]; ring
  · simp only [thermodynamics_at_z_extrapolation]; ring
  · simp only [thermodynamics_at_z_extrapolation]; ring

/-- Concrete extrapolation parameters (both optional columns enabled) used by
witnesses. -/
def extrapParamsUnit : ExtrapParams :=
  ⟨1, 1, 1, 1, 1, 1, 1, 1, 1, 1, 1, 1, 1, true, true⟩

/-- Witness for C2 at a concrete input: the damping-scale flag holds for
`extrapParamsUnit` and the theorem applies there. -/
theorem C2_at_z_asymptotic_witness :
    extrapParamsUnit.compute_damping_scale = true ∧
    ((thermodynamics_at_z_extrapolation extrapParamsUnit ⟨1, 1, 1⟩ 0).xe =
        extrapParamsUnit.xe_last ∧
      (thermodynamics_at_z_extrapolation extrapParamsUnit ⟨1, 1, 1⟩ 0).dkappa =
        (1 + 0)^(2:ℕ) * extrapParamsUnit.n_e * extrapParamsUnit.xe_last *
          extrapParamsUnit.sigma_T * extrapParamsUnit.Mpc_over_m ∧
      (thermodynamics_at_z_extrapolation extrapParamsUnit ⟨1, 1, 1⟩ 0).tau_d =
        extrapParamsUnit.tau_d_last *
          ((1 + 0)/(1 + extrapParamsUnit.z_last))^(2:ℕ) ∧
      (thermodynamics_at_z_extrapolation extrapParamsUnit ⟨1, 1, 1⟩ 0).r_d =
        some (extrapParamsUnit.r_d_last *
          ((1 + 0)/(1 + extrapParamsUnit.z_last)) ^ (-(3/2) : ℝ)) ∧
      (thermodynamics_at_z_extrapolation extrapParamsUnit ⟨1, 1, 1⟩ 0).ddkappa =
        -(BackgroundShort.mk 1 1 1).H * (2/(1 + 0)) *
          (thermodynamics_at_z_extrapolation extrapParamsUnit ⟨1, 1, 1⟩ 0).dkappa ∧
      (thermodynamics_at_z_extrapolation extrapParamsUnit ⟨1, 1, 1⟩ 0).dddkappa =
        ((BackgroundShort.mk 1 1 1).H^(2:ℕ)/(1 + 0) - (BackgroundShort.mk 1 1 1).Hprime) *
          (2/(1 + 0)) *
          (thermodynamics_at_z_extrapolation extrapParamsUnit ⟨1, 1, 1⟩ 0).dkappa ∧
      (thermodynamics_at_z_extrapolation extrapParamsUnit ⟨1, 1, 1⟩ 0).exp_m_kappa = 0 ∧
      (thermodynamics_at_z_extrapolation extrapParamsUnit ⟨1, 1, 1⟩ 0).g = 0 ∧
      (thermodynamics_at_z_extrapolation extrapParamsUnit ⟨1, 1, 1⟩ 0).dg = 0 ∧
      (thermodynamics_at_z_extrapolation extrapParamsUnit ⟨1, 1, 1⟩ 0).ddg = 0 ∧
      (thermodynamics_at_z_extrapolation extrapParamsUnit ⟨1, 1, 1⟩ 0).Tb =
        extrapParamsUnit.Tcmb * (1 + 0) ∧
      (thermodynamics_at_z_extrapolation extrapParamsUnit ⟨1, 1, 1⟩ 0).cb2 =
        (extrapParamsUnit.k_B / (extrapParamsUnit.c_light * extrapParamsUnit.c_light *
          extrapParamsUnit.m_H) *
          (1 + (1/extrapParamsUnit.not4 - 1) * extrapParamsUnit.YHe +
            extrapParamsUnit.xe_last * (1 - extrapParamsUnit.YHe)) *
          extrapParamsUnit.Tcmb * 4 / 3) * (1 + 0) ∧
      (thermodynamics_at_z_extrapolation extrapParamsUnit ⟨1, 1, 1⟩ 0).rate =
        (thermodynamics_at_z_extrapolation extrapParamsUnit ⟨1, 1, 1⟩ 0).dkappa) :=
  ⟨rfl, C2_at_z_asymptotic extrapParamsUnit ⟨1, 1, 1⟩ 0 rfl⟩

/-- C10: the dispatch at thermodynamics.c:116 uses `z >= z_table[tt_size-1]`,
so a query at exactly the largest tabulated redshift takes the analytic
extrapolation branch; table interpolation is only reached for `z` strictly
below the last grid point; and the extrapolated `x_e` at the boundary equals
the stored last-row `x_e`. -/
theorem C10_at_z_boundary (reio_parametrization : ReioScheme)
    (z_reio z_last : ℝ) (inter_mode : InterMode)
    (p : ExtrapParams) (bg : BackgroundShort) :
    thermodynamics_at_z_branch reio_parametrization z_reio z_last inter_mode z_last =
      AtZBranch.extrapolation ∧
    (∀ z : ℝ, thermodynamics_at_z_branch reio_parametrization z_reio z_last inter_mode z =
      AtZBranch.extrapolation ↔ z_last ≤ z) ∧
    (thermodynamics_at_z_extrapolation p bg p.z_last).xe = p.xe_last := by
  refine ⟨?_, ?_, rfl⟩
  · unfold thermodynamics_at_z_branch
    rw [if_pos le_rfl]
  · intro z
    unfold thermodynamics_at_z_branch
    constructor
    · intro h
      by_contra hlt
      rw [if_neg hlt] at h
      by_cases hc : (reio_parametrization = ReioScheme.reio_half_tanh ∧ z < 2 * z_reio)
          ∨ (reio_parametrization = ReioScheme.reio_inter ∧ z < 50)
      · rw [if_pos hc] at h; exact absurd h (by simp)
      · rw [if_neg hc] at h
        by_cases hm : inter_mode = InterMode.normal
        · rw [if_pos hm] at h; exact absurd h (by simp)
        · rw [if_neg hm] at h; exact absurd h (by simp)
    · intro h
      rw [if_pos h]

/-! ## Interpolation primitives

`array_interpolate_linear`, `array_interpolate_spline` and
`array_interpolate_spline_growing_closeby` live in the repository's low-level
array library, which is not under `src/` (the specification lists the
spline/quadrature primitives as an external library, section 1, and describes
the two cursor modes in section 4.8).  They are therefore modelled from the
specification.  Table rows are modelled as column-indexed functions `ℕ → α`;
the grid `xa` is increasing in the slot index. -/

/-- Modelled from the spec: binary search (the `normal` cursor mode searches
"from scratch") locating the interpolation segment of `z` inside
`xa 0 .. xa (n-1)`; returns the lower slot of the bracketing pair.  Fuelled
recursion; `n` steps always suffice for a bisection on `n` points. -/
def bisect_search {α : Type} [LinearOrderedField α]
    (xa : ℕ → α) (z : α) : ℕ → ℕ → ℕ → ℕ
  | 0, lo, _ => lo
  | fuel + 1, lo, hi =>
    if hi ≤ lo + 1 then lo
    else
      let mid := (lo + hi) / 2
      if z < xa mid then bisect_search xa z fuel lo mid
      else bisect_search xa z fuel mid hi

/-- Modelled from the spec: segment lookup of the `normal` cursor mode over
the whole table of `n` points. -/
def spline_search_normal {α : Type} [LinearOrderedField α]
    (xa : ℕ → α) (n : ℕ) (z : α) : ℕ :=
  bisect_search xa z n 0 (n - 1)

/-- Modelled from the spec: the `closeby` cursor mode resumes from the
caller-supplied index hint and walks to the bracketing segment (intended for
monotone sweeps).  Fuelled recursion; `n` steps always suffice. -/
def spline_search_closeby {α : Type} [LinearOrderedField α]
    (xa : ℕ → α) (n : ℕ) (z : α) : ℕ → ℕ → ℕ
  | 0, i => i
  | fuel + 1, i =>
    if i + 2 ≤ n ∧ xa (i + 1) < z then spline_search_closeby xa n z fuel (i + 1)
    else if 0 < i ∧ z < xa i then spline_search_closeby xa n z fuel (i - 1)
    else i

/-- Modelled from the spec: linear interpolation of every column of the row
on the segment `[xa i, xa (i+1)]`. -/
def linear_row_val {α : Type} [LinearOrderedField α]
    (xa : ℕ → α) (ya : ℕ → ℕ → α) (i : ℕ) (z : α) : ℕ → α :=
  fun col =>
    ya i col + (ya (i + 1) col - ya i col) * (z - xa i) / (xa (i + 1) - xa i)

/-- Modelled from the spec: natural cubic-spline evaluation of every column
from the value table `ya` and the precomputed second-derivative table `d2a`
on the segment `[xa i, xa (i+1)]`. -/
def spline_row_val {α : Type} [LinearOrderedField α]
    (xa : ℕ → α) (ya d2a : ℕ → ℕ → α) (i : ℕ) (z : α) : ℕ → α :=
  fun col =>
    let h := xa (i + 1) - xa i
    let b := (z - xa i) / h
    let a := 1 - b
    a * ya i col + b * ya (i + 1) col +
      ((a^(3:ℕ) - a) * d2a i col + (b^(3:ℕ) - b) * d2a (i + 1) col) * h^(2:ℕ) / 6

/-- Modelled from the spec: `array_interpolate_linear` (whole-row linear
interpolation with its own segment search). -/
def array_interpolate_linear {α : Type} [LinearOrderedField α]
    (xa : ℕ → α) (ya : ℕ → ℕ → α) (n : ℕ) (z : α) : ℕ → α :=
  linear_row_val xa ya (spline_search_normal xa n z) z

/-- Modelled from the spec: `array_interpolate_spline` (cubic spline, segment
found by binary search from scratch). -/
def array_interpolate_spline {α : Type} [LinearOrderedField α]
    (xa : ℕ → α) (ya d2a : ℕ → ℕ → α) (n : ℕ) (z : α) : ℕ → α :=
  spline_row_val xa ya d2a (spline_search_normal xa n z) z

/-- Modelled from the spec: `array_interpolate_spline_growing_closeby`
(cubic spline, segment found by resuming from the caller's hint). -/
def array_interpolate_spline_growing_closeby {α : Type} [LinearOrderedField α]
    (xa : ℕ → α) (ya d2a : ℕ → ℕ → α) (n : ℕ) (hint : ℕ) (z : α) : ℕ → α :=
  spline_row_val xa ya d2a (spline_search_closeby xa n z n hint) z

/-- Embedding of the in-range part of `thermodynamics_at_z`
(thermodynamics.c:178-234): the linear-interpolation guard at lines 181-182
and the cursor-mode split at lines 200 and 216, with the three interpolation
routines modelled above. -/
def thermodynamics_at_z_in_range {α : Type} [LinearOrderedField α]
    (reio_parametrization : ReioScheme) (z_reio : α) (inter_mode : InterMode)
    (xa : ℕ → α) (ya d2a : ℕ → ℕ → α) (n : ℕ) (hint : ℕ) (z : α) : ℕ → α :=
  if (reio_parametrization = ReioScheme.reio_half_tanh ∧ z < 2 * z_reio)
      ∨ (reio_parametrization = ReioScheme.reio_inter ∧ z < 50) then
    array_interpolate_linear xa ya n z
  else if inter_mode = InterMode.normal then
    array_interpolate_spline xa ya d2a n z
  else
    array_interpolate_spline_growing_closeby xa ya d2a n hint z

/-- C3: for a query redshift strictly inside the tabulated range, the row is
interpolated linearly exactly when the scheme is `half_tanh` with
`z < 2 z_reio` or `inter` with `z < 50` (branch and result), and in every
other in-range case the cubic spline built from the second-derivative table
serves the query, by binary search in `normal` cursor mode and by resuming
from the caller-supplied hint in `closeby` mode. -/
theorem C3_at_z_in_range_dispatch {α : Type} [LinearOrderedField α]
    (reio_parametrization : ReioScheme) (z_reio : α) (inter_mode : InterMode)
    (xa : ℕ → α) (ya d2a : ℕ → ℕ → α) (n : ℕ) (hint : ℕ) (z : α)
    (hz : z < xa (n - 1)) :
    (thermodynamics_at_z_branch reio_parametrization z_reio (xa (n - 1)) inter_mode z =
        AtZBranch.linear_interp ↔
      ((reio_parametrization = ReioScheme.reio_half_tanh ∧ z < 2 * z_reio)
        ∨ (reio_parametrization = ReioScheme.reio_inter ∧ z < 50))) ∧
    (((reio_parametrization = ReioScheme.reio_half_tanh ∧ z < 2 * z_reio)
        ∨ (reio_parametrization = ReioScheme.reio_inter ∧ z < 50)) →
      thermodynamics_at_z_in_range reio_parametrization z_reio inter_mode
          xa ya d2a n hint z =
        array_interpolate_linear xa ya n z) ∧
    (¬ ((reio_parametrization = ReioScheme.reio_half_tanh ∧ z < 2 * z_reio)
        ∨ (reio_parametrization = ReioScheme.reio_inter ∧ z < 50)) →
      (inter_mode = InterMode.normal →
        thermodynamics_at_z_branch reio_parametrization z_reio (xa (n - 1)) inter_mode z =
          AtZBranch.spline_normal ∧
        thermodynamics_at_z_in_range reio_parametrization z_reio inter_mode
            xa ya d2a n hint z =
          array_interpolate_spline xa ya d2a n z) ∧
      (inter_mode = InterMode.closeby →
        thermodynamics_at_z_branch reio_parametrization z_reio (xa (n - 1)) inter_mode z =
          AtZBranch.spline_closeby ∧
        thermodynamics_at_z_in_range reio_parametrization z_reio inter_mode
            xa ya d2a n hint z =
          array_interpolate_spline_growing_closeby xa ya d2a n hint z)) := by
  have hnotge : ¬ z ≥ xa (n - 1) := not_le.mpr hz
  unfold thermodynamics_at_z_branch thermodynamics_at_z_in_range
  rw [if_neg hnotge]
  refine ⟨?_, ?_, ?_⟩
  · by_cases hc : (reio_parametrization = ReioScheme.reio_half_tanh ∧ z < 2 * z_reio)
        ∨ (reio_parametrization = ReioScheme.reio_inter ∧ z < 50)
    · rw [if_pos hc]; simp [hc]
    · rw [if_neg hc]
      by_cases hm : inter_mode = InterMode.normal
      · rw [if_pos hm]; simp [hc]
      · rw [if_neg hm]; simp [hc]
  · intro hc; rw [if_pos hc]
  · intro hc
    constructor
    · intro hm
      rw [if_neg hc, if_pos hm, if_neg hc, if_pos hm]
      exact ⟨rfl, rfl⟩
    · intro hm
      have hm2 : ¬ inter_mode = InterMode.normal := by
        rw [hm]; intro hcontra; cases hcontra
      rw [if_neg hc, if_neg hm2, if_neg hc, if_neg hm2]
      exact ⟨rfl, rfl⟩

/-- Concrete three-point rational grid and tables for the C3 witness. -/
def xaW : ℕ → ℚ := fun i => 20 * i

/-- Constant value table for the C3 witness. -/
def yaW : ℕ → ℕ → ℚ := fun _ _ => 1

/-- Zero second-derivative table for the C3 witness. -/
def d2W : ℕ → ℕ → ℚ := fun _ _ => 0

/-- Witness for C3 at a concrete rational input: scheme `reio_inter` with
`z = 10 < 50` inside a three-point grid, hence the linear branch. -/
theorem C3_at_z_in_range_dispatch_witness :
    ((10:ℚ) < xaW (3 - 1)) ∧
    ((thermodynamics_at_z_branch ReioScheme.reio_inter (7:ℚ)
        (xaW (3 - 1)) InterMode.normal 10 =
        AtZBranch.linear_interp ↔
      ((ReioScheme.reio_inter = ReioScheme.reio_half_tanh ∧ (10:ℚ) < 2 * 7)
        ∨ (ReioScheme.reio_inter = ReioScheme.reio_inter ∧ (10:ℚ) < 50))) ∧
    (((ReioScheme.reio_inter = ReioScheme.reio_half_tanh ∧ (10:ℚ) < 2 * 7)
        ∨ (ReioScheme.reio_inter = ReioScheme.reio_inter ∧ (10:ℚ) < 50)) →
      thermodynamics_at_z_in_range ReioScheme.reio_inter (7:ℚ) InterMode.normal
          xaW yaW d2W 3 0 10 =
        array_interpolate_linear xaW yaW 3 10) ∧
    (¬ ((ReioScheme.reio_inter = ReioScheme.reio_half_tanh ∧ (10:ℚ) < 2 * 7)
        ∨ (ReioScheme.reio_inter = ReioScheme.reio_inter ∧ (10:ℚ) < 50)) →
      (InterMode.normal = InterMode.normal →
        thermodynamics_at_z_branch ReioScheme.reio_inter (7:ℚ)
            (xaW (3 - 1)) InterMode.normal 10 =
          AtZBranch.spline_normal ∧
        thermodynamics_at_z_in_range ReioScheme.reio_inter (7:ℚ) InterMode.normal
            xaW yaW d2W 3 0 10 =
          array_interpolate_spline xaW yaW
            d2W 3 10) ∧
      (InterMode.normal = InterMode.closeby →
        thermodynamics_at_z_branch ReioScheme.reio_inter (7:ℚ)
            (xaW (3 - 1)) InterMode.normal 10 =
          AtZBranch.spline_closeby ∧
        thermodynamics_at_z_in_range ReioScheme.reio_inter (7:ℚ) InterMode.normal
            xaW yaW d2W 3 0 10 =
          array_interpolate_spline_growing_closeby xaW
            yaW d2W 3 0 10))) :=
  ⟨by norm_num [xaW],
    C3_at_z_in_range_dispatch ReioScheme.reio_inter (7:ℚ) InterMode.normal
      xaW yaW d2W 3 0 10 (by norm_num [xaW])⟩

/-! ## Matter-temperature derivative (`thermodynamics_solve_derivs`, lines 2302-2331)

The embedded function returns `dy[index_Tmat]` BEFORE the global sign flip of
line 2344 (the evolver integrates in `-z`), i.e. the value the claim calls
`dT_mat/dz`.  `Hz`, `dHdz`, `n`, `Trad`, `x`, `dx` and `energy_rate` are
computed upstream in the same function (lines 2148-2311) and enter here as
inputs.  The C text is:

    R_g = ptw->R_g_factor*pow(Trad,4);
    timeTh=(1./R_g)*(1.+x+ptw->fHe)/x;
    timeH=2./(3.*ptw->SIunit_H0*pow(1.+z,1.5));
    if (timeTh < ptw->x_limit_T*timeH) {
      eps = Hz * (1.+x+ptw->fHe) / (R_g/Trad*x);
      dlneps_dz = dHdz/Hz - ((1.+ptw->fHe)/(1.+ptw->fHe+x))*(dx/x) - 3./(1.+z);
      dy[Tmat] = ptw->Tcmb - eps * dlneps_dz;
    } else {
      chi_heat = x < 1 ? MIN(0.996857*(1.-pow(1.-pow(x,0.300134),1.51035)),1) : 1.;
      dy[Tmat] = R_g * x / (1.+x+ptw->fHe) * (Tmat-Trad) / (Hz*(1.+z)) + 2.*Tmat/(1.+z)
                 - 2./(3.*_k_B_)*energy_rate*chi_heat/n/(1.+ptw->fHe+x)/(Hz*(1.+z));
    }
-/

/-- Workspace constants entering the matter-temperature equation:
`ptw->R_g_factor`, `ptw->fHe`, `ptw->x_limit_T` (= `ppr->recfast_H_frac`,
line 2762), `ptw->SIunit_H0`, `ptw->Tcmb` and `_k_B_`. -/
structure TmatParams where
  R_g_factor : ℝ
  fHe : ℝ
  x_limit_T : ℝ
  SIunit_H0 : ℝ
  Tcmb : ℝ
  k_B : ℝ

/-- Embedding of the matter-temperature branch of
`thermodynamics_solve_derivs` (thermodynamics.c:2302-2331). -/
noncomputable def dTmat_dz (p : TmatParams)
    (z x dx Tmat Trad Hz dHdz n energy_rate : ℝ) : ℝ :=
  let R_g := p.R_g_factor * Trad^(4:ℕ)
  let timeTh := 1/R_g * (1 + x + p.fHe) / x
  let timeH := 2/(3 * p.SIunit_H0 * (1 + z) ^ (1.5 : ℝ))
  if timeTh < p.x_limit_T * timeH then
    let eps := Hz * (1 + x + p.fHe) / (R_g/Trad * x)
    let dlneps_dz := dHdz/Hz - ((1 + p.fHe)/(1 + p.fHe + x)) * (dx/x) - 3/(1 + z)
    p.Tcmb - eps * dlneps_dz
  else
    let chi_heat := if x < 1 then
        min (0.996857 * (1 - (1 - x ^ (0.300134 : ℝ)) ^ (1.51035 : ℝ))) 1
      else 1
    R_g * x / (1 + x + p.fHe) * (Tmat - Trad) / (Hz * (1 + z)) + 2 * Tmat/(1 + z)
      - 2/(3 * p.k_B) * energy_rate * chi_heat / n / (1 + p.fHe + x) / (Hz * (1 + z))

/-- The claim's formulas taken literally, with its symbol `R_g` read as the
bare Compton factor (`ptw->R_g_factor`), the reading fixed by the claim's
`eps = H*(1+x+f_He)/(R_g*T_rad^3*x)`: the Thomson timescale is
`1/(R_g * (1+x+f_He)/x * T_rad^4)` and the full equation carries a bare
`R_g` coefficient. -/
noncomputable def dTmat_dz_claim (p : TmatParams)
    (z x dx Tmat Trad Hz dHdz n energy_rate : ℝ) : ℝ :=
  let t_Th := 1/(p.R_g_factor * ((1 + x + p.fHe)/x) * Trad^(4:ℕ))
  let t_H := 2/(3 * p.SIunit_H0 * (1 + z) ^ (1.5 : ℝ))
  if t_Th < p.x_limit_T * t_H then
    let eps := Hz * (1 + x + p.fHe) / (p.R_g_factor * Trad^(3:ℕ) * x)
    let dlneps_dz := dHdz/Hz - ((1 + p.fHe)/(1 + x + p.fHe)) * (dx/x) - 3/(1 + z)
    p.Tcmb - eps * dlneps_dz
  else
    let chi_heat := if x < 1 then
        min (0.996857 * (1 - (1 - x ^ (0.300134 : ℝ)) ^ (1.51035 : ℝ))) 1
      else 1
    p.R_g_factor * x / (1 + x + p.fHe) * (Tmat - Trad) / (Hz * (1 + z)) + 2 * Tmat/(1 + z)
      - 2/(3 * p.k_B) * energy_rate * chi_heat / (n * (1 + p.fHe + x) * Hz * (1 + z))

/-- The amended claim: same two-regime structure, with the Thomson timescale
`t_Th = (1+x+f_He)/(R_g * x * T_rad^4)` (the electron-fraction factor belongs
in the numerator) and the full equation's Compton coefficient
`R_g * T_rad^4` (the code's local `R_g` variable includes `T_rad^4`). -/
noncomputable def dTmat_dz_amended (p : TmatParams)
    (z x dx Tmat Trad Hz dHdz n energy_rate : ℝ) : ℝ :=
  let t_Th := (1 + x + p.fHe)/(p.R_g_factor * x * Trad^(4:ℕ))
  let t_H := 2/(3 * p.SIunit_H0 * (1 + z) ^ (1.5 : ℝ))
  if t_Th < p.x_limit_T * t_H then
    let eps := Hz * (1 + x + p.fHe) / (p.R_g_factor * Trad^(3:ℕ) * x)
    let dlneps_dz := dHdz/Hz - ((1 + p.fHe)/(1 + x + p.fHe)) * (dx/x) - 3/(1 + z)
    p.Tcmb - eps * dlneps_dz
  else
    let chi_heat := if x < 1 then
        min (0.996857 * (1 - (1 - x ^ (0.300134 : ℝ)) ^ (1.51035 : ℝ))) 1
      else 1
    p.R_g_factor * Trad^(4:ℕ) * x / (1 + x + p.fHe) * (Tmat - Trad) / (Hz * (1 + z))
      + 2 * Tmat/(1 + z)
      - 2/(3 * p.k_B) * energy_rate * chi_heat / (n * (1 + p.fHe + x) * Hz * (1 + z))

/-- Concrete parameters for the C5 counterexample and witness. -/
noncomputable def tmatParamsEx : TmatParams := ⟨1, 1, 1, 2/3, 5, 1⟩

/-- C5, counterexample: at `z = 0`, `x = 1`, `dx = 0`, `Tmat = 7`, `Trad = 1`,
`Hz = 1`, `dHdz = 0`, `n = 1`, `energy_rate = 0` with unit constants and
`SIunit_H0 = 2/3`, the code's Thomson timescale is `3` (not below the Hubble
time `1`), so the code takes the full equation and returns `16`; the claim's
literal `t_Th = 1/3` selects the tight-coupling branch and returns `14`. -/
theorem C5_dTmat_dz_counterexample :
    dTmat_dz tmatParamsEx 0 1 0 7 1 1 0 1 0 ≠
      dTmat_dz_claim tmatParamsEx 0 1 0 7 1 1 0 1 0 := by
  have hpow : ((1:ℝ) + 0) ^ (1.5 : ℝ) = 1 := by
    rw [add_zero, Real.one_rpow]
  have hcode : dTmat_dz tmatParamsEx 0 1 0 7 1 1 0 1 0 = 16 := by
    rw [dTmat_dz]
    simp only [tmatParamsEx, hpow]
    rw [if_neg (by norm_num)]
    norm_num
  have hclaim : dTmat_dz_claim tmatParamsEx 0 1 0 7 1 1 0 1 0 = 14 := by
    rw [dTmat_dz_claim]
    simp only [tmatParamsEx, hpow]
    rw [if_pos (by norm_num)]
    norm_num
  rw [hcode, hclaim]
  norm_num

/-- C5, amended: the matter-temperature derivative of
`thermodynamics_solve_derivs` has exactly the two regimes of the amended
claim, selected by comparing the Thomson timescale
`(1+x+f_He)/(R_g x T_rad^4)` against `x_limit` times the Hubble time; the
tight-coupling branch evaluates `T_cmb - eps (d ln eps/dz)` with
`eps = H (1+x+f_He)/(R_g T_rad^3 x)` and the stated `d ln eps/dz`; the other
branch evaluates the full Compton equation with coefficient `R_g T_rad^4`
and the `chi_heat` fit. -/
theorem C5_dTmat_dz_amended (p : TmatParams)
    (z x dx Tmat Trad Hz dHdz n energy_rate : ℝ) (hT : Trad ≠ 0)
    (hHz : Hz ≠ 0) (hz1 : (1:ℝ) + z ≠ 0) (hn : n ≠ 0)
    (hfx : 1 + p.fHe + x ≠ 0) (hkB : p.k_B ≠ 0) :
    dTmat_dz p z x dx Tmat Trad Hz dHdz n energy_rate =
      dTmat_dz_amended p z x dx Tmat Trad Hz dHdz n energy_rate := by
  have hxf : 1 + x + p.fHe ≠ 0 := fun hc => hfx (by linarith)
  rw [dTmat_dz, dTmat_dz_amended]
  have e1 : 1/(p.R_g_factor * Trad^(4:ℕ)) * (1 + x + p.fHe) / x =
      (1 + x + p.fHe)/(p.R_g_factor * x * Trad^(4:ℕ)) := by
    ring
  have e2 : p.R_g_factor * Trad^(4:ℕ)/Trad = p.R_g_factor * Trad^(3:ℕ) := by
    rw [mul_div_assoc]
    congr 1
    rw [show (4:ℕ) = 3 + 1 from rfl, pow_succ, mul_div_assoc, div_self hT, mul_one]
  simp only [e1, e2]
  split_ifs with h hx
  · ring
  · field_simp
    ring
  · field_simp
    ring

/-- Witness for the amended C5 theorem: the nonzero-`T_rad` hypothesis holds
at the counterexample's concrete input and the theorem applies there. -/
theorem C5_dTmat_dz_amended_witness :
    ((1:ℝ) ≠ 0 ∧ (1:ℝ) + 0 ≠ 0 ∧ 1 + tmatParamsEx.fHe + 1 ≠ 0 ∧
      tmatParamsEx.k_B ≠ 0) ∧
      dTmat_dz tmatParamsEx 0 1 0 7 1 1 0 1 0 =
        dTmat_dz_amended tmatParamsEx 0 1 0 7 1 1 0 1 0 :=
  ⟨⟨by norm_num, by norm_num, by norm_num [tmatParamsEx], by norm_num [tmatParamsEx]⟩,
    C5_dTmat_dz_amended tmatParamsEx 0 1 0 7 1 1 0 1 0 (by norm_num) (by norm_num)
      (by norm_num) (by norm_num) (by norm_num [tmatParamsEx]) (by norm_num [tmatParamsEx])⟩

/-! ## Damping scale (`thermodynamics_calculate_damping_scale`, lines 963-1050)

The integrand stored per grid point (lines 997-999) is

    1./6./dkappa * (R*R/(1+R) + 16./15.)/(1.+R)

with `R = 3/4 rho_b/rho_g`.  After spline-integrating it from `tau_ini`
(the cumulative integral enters below as the abstract value `integral`,
since the spline quadrature lives in the external array library), the stored
damping scale (lines 1041-1043) is

    r_d = 2.*_PI_*sqrt( 16./(15.*6.*3.)*tau_ini/dkappa_ini + integral ). -/

/-- Embedding of the damping-scale integrand (thermodynamics.c:997-999). -/
noncomputable def damping_integrand (dkappa R : ℝ) : ℝ :=
  1/6/dkappa * (R * R/(1 + R) + 16/15)/(1 + R)

/-- Embedding of the stored damping scale (thermodynamics.c:1041-1043), with
`integral` the cumulative spline integral of the integrand from `tau_ini` to
the row's conformal time. -/
noncomputable def r_d_value (tau_ini dkappa_ini integral : ℝ) : ℝ :=
  2 * Real.pi * Real.sqrt (16/(15*6*3) * tau_ini/dkappa_ini + integral)

/-- C7, counterexample: at `tau_ini = 3`, `dkappa_ini = 1` and vanishing
integral, the stored value satisfies `r_d^2 = (2 pi)^2 (16/90)`, while the
claim's boundary term `tau_ini/(3 dkappa_ini) * (16/(15*6*3))` gives
`(2 pi)^2 (16/270)`: the claim double-counts the factor 3 that the analytic
radiation-dominated integral already put inside `16/(15*6*3)`. -/
theorem C7_r_d_counterexample :
    (r_d_value 3 1 0)^(2:ℕ) ≠
      (2 * Real.pi)^(2:ℕ) * (3/(3*1) * (16/(15*6*3)) + 0) := by
  have hs : (r_d_value 3 1 0)^(2:ℕ) = (2 * Real.pi)^(2:ℕ) * (16/90) := by
    unfold r_d_value
    rw [mul_pow, Real.sq_sqrt (by norm_num)]
    norm_num
  rw [hs]
  intro h
  have hpi : ((2:ℝ) * Real.pi)^(2:ℕ) ≠ 0 := by
    positivity
  have h2 := mul_left_cancel₀ hpi h
  norm_num at h2

/-- C7, amended: every stored damping-scale value satisfies
`r_d^2 = (2 pi)^2 [ tau_ini/(3 (dkappa/dtau)_ini) * (16/(15*6)) + integral ]`
(equivalently, boundary term `(16/(15*6*3)) * tau_ini/dkappa_ini`), where
`integral` is the cumulative spline integral of the integrand
`(1/(dkappa/dtau)) * ((R^2/(1+R) + 16/15)/(1+R)) * (1/6)` from `tau_ini`;
the first term is the analytic radiation-dominated boundary contribution. -/
theorem C7_r_d_amended (tau_ini dkappa_ini integral : ℝ)
    (h : 0 ≤ 16/(15*6*3) * tau_ini/dkappa_ini + integral) :
    (r_d_value tau_ini dkappa_ini integral)^(2:ℕ) =
      (2 * Real.pi)^(2:ℕ) *
        (tau_ini/(3 * dkappa_ini) * (16/(15*6)) + integral) ∧
    ∀ dkappa R : ℝ, damping_integrand dkappa R =
      1/dkappa * ((R^(2:ℕ)/(1 + R) + 16/15)/(1 + R)) * (1/6) := by
  constructor
  · unfold r_d_value
    rw [mul_pow, Real.sq_sqrt h]
    ring
  · intro dkappa R
    unfold damping_integrand
    ring

/-- Witness for the amended C7 theorem: the nonnegativity hypothesis holds at
`tau_ini = 3`, `dkappa_ini = 1`, `integral = 0`, and the theorem applies
there. -/
theorem C7_r_d_amended_witness :
    (0:ℝ) ≤ 16/(15*6*3) * 3/1 + 0 ∧
      ((r_d_value 3 1 0)^(2:ℕ) =
        (2 * Real.pi)^(2:ℕ) * ((3:ℝ)/(3 * 1) * (16/(15*6)) + 0) ∧
      ∀ dkappa R : ℝ, damping_integrand dkappa R =
        1/dkappa * ((R^(2:ℕ)/(1 + R) + 16/15)/(1 + R)) * (1/6)) :=
  ⟨by norm_num, C7_r_d_amended 3 1 0 (by norm_num)⟩

/-! ## Variation rate (`thermodynamics_calculate_opticals`, lines 1100-1133)

The loop runs over the grid (in decreasing index order, which does not affect
the properties below), guards against a vanishing `dkappa` with

    class_test(thermodynamics_table[...index_th_dkappa] == 0., "variation rate diverges");

and stores

    rate = sqrt(pow(dkappa,2) + pow(ddkappa/dkappa,2) + fabs(dddkappa/dkappa)). -/

/-- The three kappa-derivative columns of one grid row as read by the
variation-rate loop. -/
structure KappaRow where
  dkappa : ℝ
  ddkappa : ℝ
  dddkappa : ℝ

/-- Embedding of the stored variation rate (thermodynamics.c:1130-1131). -/
noncomputable def variation_rate (r : KappaRow) : ℝ :=
  Real.sqrt (r.dkappa^(2:ℕ) + (r.ddkappa/r.dkappa)^(2:ℕ) + |r.dddkappa/r.dkappa|)

/-- Embedding of the variation-rate loop with its `class_test` guard
(thermodynamics.c:1126-1131): `none` models the error exit "variation rate
diverges". -/
noncomputable def rate_column : List KappaRow → Option (List ℝ)
  | [] => some []
  | r :: rs =>
    if r.dkappa = 0 then none
    else
      match rate_column rs with
      | none => none
      | some ts => some (variation_rate r :: ts)

/-- C8: the derived-quantity pass errors out if `dkappa/dtau` vanishes at any
sample, and whenever `dkappa/dtau` is nonzero at every grid point the loop
succeeds and the rate column (before boxcar smoothing) equals
`sqrt((dkappa/dtau)^2 + (kappa''/kappa')^2 + |kappa'''/kappa'|)` at every
grid point. -/
theorem C8_variation_rate (rows : List KappaRow)
    (h : ∀ r ∈ rows, r.dkappa ≠ 0) :
    rate_column rows = some (rows.map (fun r =>
      Real.sqrt (r.dkappa^(2:ℕ) + (r.ddkappa/r.dkappa)^(2:ℕ) +
        |r.dddkappa/r.dkappa|))) ∧
    ∀ rows2 : List KappaRow, (∃ r ∈ rows2, r.dkappa = 0) →
      rate_column rows2 = none := by
  constructor
  · induction rows with
    | nil => rfl
    | cons r rs ih =>
      have hr : r.dkappa ≠ 0 := h r (List.mem_cons_self r rs)
      have hrs : ∀ q ∈ rs, q.dkappa ≠ 0 := fun q hq => h q (List.mem_cons_of_mem r hq)
      rw [rate_column, if_neg hr, ih hrs]
      rfl
  · intro rows2 hex
    induction rows2 with
    | nil => exact absurd hex (by simp)
    | cons r rs ih =>
      rw [rate_column]
      rcases hex with ⟨q, hq, hq0⟩
      rcases List.mem_cons.mp hq with hqr | hqm
      · rw [if_pos (hqr ▸ hq0)]
      · by_cases hr : r.dkappa = 0
        · rw [if_pos hr]
        · rw [if_neg hr, ih ⟨q, hqm, hq0⟩]

/-- Witness for C8: a one-row table with `dkappa = 1` satisfies the
nonvanishing hypothesis and the theorem applies there. -/
theorem C8_variation_rate_witness :
    (∀ r ∈ [KappaRow.mk 1 2 3], r.dkappa ≠ 0) ∧
      (rate_column [KappaRow.mk 1 2 3] = some ([KappaRow.mk 1 2 3].map (fun r =>
        Real.sqrt (r.dkappa^(2:ℕ) + (r.ddkappa/r.dkappa)^(2:ℕ) +
          |r.dddkappa/r.dkappa|))) ∧
      ∀ rows2 : List KappaRow, (∃ r ∈ rows2, r.dkappa = 0) →
        rate_column rows2 = none) :=
  ⟨by intro r hr; simp only [List.mem_singleton] at hr; rw [hr]; norm_num,
    C8_variation_rate [KappaRow.mk 1 2 3]
      (by intro r hr; simp only [List.mem_singleton] at hr; rw [hr]; norm_num)⟩

/-! ## Optical-depth bisection
(`thermodynamics_reionization_evolve_with_tau`, lines 3326-3547)

The trial integration (generic evolver + `thermodynamics_reionization_get_tau`)
is modelled by an abstract map `run_tau : sigma -> alpha -> alpha` from the
integrator state vector it starts from and the trial reionization redshift to
the resulting optical depth; `s0` is the cached pre-reionization state `ptvs`
(lines 3383-3388).  The C loop (lines 3458-3533):

    counter=0;
    while ((tau_sup-tau_inf) > pth->tau_reio * ppr->reionization_optical_depth_tol) {
      z_mid=0.5*(z_sup+z_inf);
      reionization_parameters[index_reio_redshift] = z_mid;
      reionization_parameters[index_reio_start] = z_mid + start_factor*reionization_width;
      if (reio_start < helium_fullreio_redshift + start_factor*helium_fullreio_width)
        reio_start = helium_fullreio_redshift + start_factor*helium_fullreio_width;
      class_test(reio_start > reionization_z_start_max, ...);
      generic_evolver(...);                       // trial integration from ptv
      ptv->y = ptvs->y; ...                       // restore cached state
      thermodynamics_reionization_get_tau(...); tau_mid = ...;
      if (tau_mid > tau_reio) { z_sup=z_mid; tau_sup=tau_mid; }
      else                    { z_inf=z_mid; tau_inf=tau_mid; }
      counter++;
      class_test(counter > _MAX_IT_, ...);
    }
    pth->z_reio = reionization_parameters[index_reio_redshift];

`_MAX_IT_` is a numeric cap defined outside `src/` (`p.max_it`).  The
embedding adds a fuel argument; `fuel_exhausted` is a model artifact proved
unreachable from the entry point below. -/

/-- Parameters of the optical-depth shooting. -/
structure BisectPrm (α : Type) where
  reionization_z_start_max : α
  reionization_start_factor : α
  reionization_width : α
  helium_fullreio_redshift : α
  helium_fullreio_width : α
  tau_reio : α
  reionization_optical_depth_tol : α
  max_it : ℕ

/-- Result of the shooting: normal exit stores the last trial redshift in
`pth->z_reio` (line 3536) together with the final bracket; `error_exit`
models any triggered `class_test`; `fuel_exhausted` is the model artifact. -/
inductive BisectOutcome (α : Type) where
  | ok (z_reio tau_sup tau_inf : α)
  | error_exit
  | fuel_exhausted
deriving DecidableEq

/-- The trial reionization-start redshift of one loop iteration
(thermodynamics.c:3467-3472): `z_mid + start_factor*reionization_width`,
replaced by the helium value when that is larger. -/
def reio_start_of {α : Type} [LinearOrderedField α] (p : BisectPrm α) (z_mid : α) : α :=
  if z_mid + p.reionization_start_factor * p.reionization_width <
      p.helium_fullreio_redshift +
        p.reionization_start_factor * p.helium_fullreio_width then
    p.helium_fullreio_redshift + p.reionization_start_factor * p.helium_fullreio_width
  else z_mid + p.reionization_start_factor * p.reionization_width

/-- Embedding of the bisection `while` loop (thermodynamics.c:3460-3533),
threading the integrator vector `v` explicitly: each iteration integrates
from `v` (producing `run_tau v z_mid`), then restores the cached vector `s0`
for the next trial (lines 3500-3506).  The C code increments the counter and
tests the cap after the bracket update; the cap test commutes with the
(pure) trial computation, so the returned value is unchanged. -/
def bisect_loop {α σ : Type} [LinearOrderedField α]
    (p : BisectPrm α) (run_tau : σ → α → α) (s0 : σ) :
    ℕ → σ → α → α → α → α → α → ℕ → BisectOutcome α
  | 0, _, z_cur, _, _, tau_sup, tau_inf, _ =>
    if tau_sup - tau_inf > p.tau_reio * p.reionization_optical_depth_tol then
      BisectOutcome.fuel_exhausted
    else BisectOutcome.ok z_cur tau_sup tau_inf
  | fuel + 1, v, z_cur, z_sup, z_inf, tau_sup, tau_inf, counter =>
    if tau_sup - tau_inf > p.tau_reio * p.reionization_optical_depth_tol then
      if reio_start_of p ((z_sup + z_inf)/2) > p.reionization_z_start_max then
        BisectOutcome.error_exit
      else if counter + 1 > p.max_it then BisectOutcome.error_exit
      else
        bisect_loop p run_tau s0 fuel s0 ((z_sup + z_inf)/2)
          (if run_tau v ((z_sup + z_inf)/2) > p.tau_reio then (z_sup + z_inf)/2
            else z_sup)
          (if run_tau v ((z_sup + z_inf)/2) > p.tau_reio then z_inf
            else (z_sup + z_inf)/2)
          (if run_tau v ((z_sup + z_inf)/2) > p.tau_reio
            then run_tau v ((z_sup + z_inf)/2) else tau_sup)
          (if run_tau v ((z_sup + z_inf)/2) > p.tau_reio then tau_inf
            else run_tau v ((z_sup + z_inf)/2))
          (counter + 1)
    else BisectOutcome.ok z_cur tau_sup tau_inf

/-- The same loop with the trial integration abstracted into a pure oracle
`tau_of` of the trial redshift alone (no state vector). -/
def bisect_loop_oracle {α : Type} [LinearOrderedField α]
    (p : BisectPrm α) (tau_of : α → α) :
    ℕ → α → α → α → α → α → ℕ → BisectOutcome α
  | 0, z_cur, _, _, tau_sup, tau_inf, _ =>
    if tau_sup - tau_inf > p.tau_reio * p.reionization_optical_depth_tol then
      BisectOutcome.fuel_exhausted
    else BisectOutcome.ok z_cur tau_sup tau_inf
  | fuel + 1, z_cur, z_sup, z_inf, tau_sup, tau_inf, counter =>
    if tau_sup - tau_inf > p.tau_reio * p.reionization_optical_depth_tol then
      if reio_start_of p ((z_sup + z_inf)/2) > p.reionization_z_start_max then
        BisectOutcome.error_exit
      else if counter + 1 > p.max_it then BisectOutcome.error_exit
      else
        bisect_loop_oracle p tau_of fuel ((z_sup + z_inf)/2)
          (if tau_of ((z_sup + z_inf)/2) > p.tau_reio then (z_sup + z_inf)/2
            else z_sup)
          (if tau_of ((z_sup + z_inf)/2) > p.tau_reio then z_inf
            else (z_sup + z_inf)/2)
          (if tau_of ((z_sup + z_inf)/2) > p.tau_reio
            then tau_of ((z_sup + z_inf)/2) else tau_sup)
          (if tau_of ((z_sup + z_inf)/2) > p.tau_reio then tau_inf
            else tau_of ((z_sup + z_inf)/2))
          (counter + 1)
    else BisectOutcome.ok z_cur tau_sup tau_inf

/-- Embedding of the entry of `thermodynamics_reionization_evolve_with_tau`
(thermodynamics.c:3382-3461): working vector initialized from the cached
state (3383-3388); upper bracket
`z_sup = z_start_max - start_factor*reionization_width` (3394) with its
negativity test (3395-3397); first trial at the upper limit (3411-3438);
the `tau_sup < tau_reio` test (3440-3442); lower bracket `z_inf = 0`,
`tau_inf = 0` (3447-3448); state restore (3451-3456); then the loop with
fuel `max_it + 1`, which the termination theorem shows is never exhausted. -/
def thermodynamics_reionization_evolve_with_tau {α σ : Type}
    [LinearOrderedField α]
    (p : BisectPrm α) (run_tau : σ → α → α) (s0 : σ) : BisectOutcome α :=
  if p.reionization_z_start_max - p.reionization_start_factor * p.reionization_width
      < 0 then
    BisectOutcome.error_exit
  else if run_tau s0 (p.reionization_z_start_max -
      p.reionization_start_factor * p.reionization_width) < p.tau_reio then
    BisectOutcome.error_exit
  else
    bisect_loop p run_tau s0 (p.max_it + 1) s0
      (p.reionization_z_start_max - p.reionization_start_factor * p.reionization_width)
      (p.reionization_z_start_max - p.reionization_start_factor * p.reionization_width)
      0
      (run_tau s0 (p.reionization_z_start_max -
        p.reionization_start_factor * p.reionization_width))
      0 0

/-- Oracle version of the entry point. -/
def evolve_with_tau_oracle {α : Type} [LinearOrderedField α]
    (p : BisectPrm α) (tau_of : α → α) : BisectOutcome α :=
  if p.reionization_z_start_max - p.reionization_start_factor * p.reionization_width
      < 0 then
    BisectOutcome.error_exit
  else if tau_of (p.reionization_z_start_max -
      p.reionization_start_factor * p.reionization_width) < p.tau_reio then
    BisectOutcome.error_exit
  else
    bisect_loop_oracle p tau_of (p.max_it + 1)
      (p.reionization_z_start_max - p.reionization_start_factor * p.reionization_width)
      (p.reionization_z_start_max - p.reionization_start_factor * p.reionization_width)
      0
      (tau_of (p.reionization_z_start_max -
        p.reionization_start_factor * p.reionization_width))
      0 0

lemma bisect_loop_eq_oracle {α σ : Type} [LinearOrderedField α]
    (p : BisectPrm α) (run_tau : σ → α → α) (s0 : σ) :
    ∀ (fuel : ℕ) (z_cur z_sup z_inf tau_sup tau_inf : α) (counter : ℕ),
      bisect_loop p run_tau s0 fuel s0 z_cur z_sup z_inf tau_sup tau_inf counter =
        bisect_loop_oracle p (fun z => run_tau s0 z) fuel
          z_cur z_sup z_inf tau_sup tau_inf counter := by
  intro fuel
  induction fuel with
  | zero =>
    intro z_cur z_sup z_inf tau_sup tau_inf counter
    rfl
  | succ f ih =>
    intro z_cur z_sup z_inf tau_sup tau_inf counter
    rw [bisect_loop, bisect_loop_oracle]
    by_cases hguard : tau_sup - tau_inf >
        p.tau_reio * p.reionization_optical_depth_tol
    · rw [if_pos hguard, if_pos hguard]
      by_cases hstart : reio_start_of p ((z_sup + z_inf)/2) >
          p.reionization_z_start_max
      · rw [if_pos hstart, if_pos hstart]
      · rw [if_neg hstart, if_neg hstart]
        by_cases hcap : counter + 1 > p.max_it
        · rw [if_pos hcap, if_pos hcap]
        · rw [if_neg hcap, if_neg hcap]
          exact ih _ _ _ _ _ _
    · rw [if_neg hguard, if_neg hguard]

lemma bisect_loop_no_fuel_exhaustion {α σ : Type} [LinearOrderedField α]
    (p : BisectPrm α) (run_tau : σ → α → α) (s0 : σ) :
    ∀ (fuel : ℕ) (v : σ) (z_cur z_sup z_inf tau_sup tau_inf : α) (counter : ℕ),
      counter + fuel = p.max_it + 1 → counter ≤ p.max_it →
      bisect_loop p run_tau s0 fuel v z_cur z_sup z_inf tau_sup tau_inf counter ≠
        BisectOutcome.fuel_exhausted := by
  intro fuel
  induction fuel with
  | zero =>
    intro v z_cur z_sup z_inf tau_sup tau_inf counter hsum hle
    omega
  | succ f ih =>
    intro v z_cur z_sup z_inf tau_sup tau_inf counter hsum hle
    rw [bisect_loop]
    by_cases hguard : tau_sup - tau_inf >
        p.tau_reio * p.reionization_optical_depth_tol
    · rw [if_pos hguard]
      by_cases hstart : reio_start_of p ((z_sup + z_inf)/2) >
          p.reionization_z_start_max
      · rw [if_pos hstart]
        exact fun hcontra => BisectOutcome.noConfusion hcontra
      · rw [if_neg hstart]
        by_cases hcap : counter + 1 > p.max_it
        · rw [if_pos hcap]
          exact fun hcontra => BisectOutcome.noConfusion hcontra
        · rw [if_neg hcap]
          exact ih _ _ _ _ _ _ _ (by omega) (by omega)
    · rw [if_neg hguard]
      exact fun hcontra => BisectOutcome.noConfusion hcontra

lemma bisect_loop_ok_converged {α σ : Type} [LinearOrderedField α]
    (p : BisectPrm α) (run_tau : σ → α → α) (s0 : σ) :
    ∀ (fuel : ℕ) (v : σ) (z_cur z_sup z_inf tau_sup tau_inf : α) (counter : ℕ)
      (z ts ti : α),
      bisect_loop p run_tau s0 fuel v z_cur z_sup z_inf tau_sup tau_inf counter =
        BisectOutcome.ok z ts ti →
      ts - ti ≤ p.tau_reio * p.reionization_optical_depth_tol := by
  intro fuel
  induction fuel with
  | zero =>
    intro v z_cur z_sup z_inf tau_sup tau_inf counter z ts ti h
    rw [bisect_loop] at h
    by_cases hguard : tau_sup - tau_inf >
        p.tau_reio * p.reionization_optical_depth_tol
    · rw [if_pos hguard] at h
      exact BisectOutcome.noConfusion h
    · rw [if_neg hguard] at h
      injection h with h1 h2 h3
      subst h2; subst h3
      exact not_lt.mp hguard
  | succ f ih =>
    intro v z_cur z_sup z_inf tau_sup tau_inf counter z ts ti h
    rw [bisect_loop] at h
    by_cases hguard : tau_sup - tau_inf >
        p.tau_reio * p.reionization_optical_depth_tol
    · rw [if_pos hguard] at h
      by_cases hstart : reio_start_of p ((z_sup + z_inf)/2) >
          p.reionization_z_start_max
      · rw [if_pos hstart] at h
        exact BisectOutcome.noConfusion h
      · rw [if_neg hstart] at h
        by_cases hcap : counter + 1 > p.max_it
        · rw [if_pos hcap] at h
          exact BisectOutcome.noConfusion h
        · rw [if_neg hcap] at h
          exact ih _ _ _ _ _ _ _ _ _ _ h
    · rw [if_neg hguard] at h
      injection h with h1 h2 h3
      subst h2; subst h3
      exact not_lt.mp hguard

/-- C4: for the embedded shooting procedure, starting from the bracket
`[0, reionization_z_start_max - reionization_start_factor*reionization_width]`
with fuel `_MAX_IT_ + 1`: (1) the loop always terminates within the cap (the
fuel-exhaustion artifact is unreachable), returning either a converged
result or an error; (2) the cached pre-reionization state `s0` is restored
before every trial integration, so the whole run only depends on the trial
map through its values at `s0`; (3) every normal exit satisfies the
convergence criterion `tau_sup - tau_inf <= tau_reio *
reionization_optical_depth_tol` and carries the stored `z_reio`. -/
theorem C4_reionization_bisection {α σ : Type} [LinearOrderedField α]
    (p : BisectPrm α) (run_tau : σ → α → α) (s0 : σ) :
    (thermodynamics_reionization_evolve_with_tau p run_tau s0 ≠
      BisectOutcome.fuel_exhausted) ∧
    (thermodynamics_reionization_evolve_with_tau p run_tau s0 =
      evolve_with_tau_oracle p (fun z => run_tau s0 z)) ∧
    (∀ z ts ti, thermodynamics_reionization_evolve_with_tau p run_tau s0 =
        BisectOutcome.ok z ts ti →
      ts - ti ≤ p.tau_reio * p.reionization_optical_depth_tol) := by
  refine ⟨?_, ?_, ?_⟩
  · unfold thermodynamics_reionization_evolve_with_tau
    by_cases h1 : p.reionization_z_start_max -
        p.reionization_start_factor * p.reionization_width < 0
    · rw [if_pos h1]
      exact fun hcontra => BisectOutcome.noConfusion hcontra
    · rw [if_neg h1]
      by_cases h2 : run_tau s0 (p.reionization_z_start_max -
          p.reionization_start_factor * p.reionization_width) < p.tau_reio
      · rw [if_pos h2]
        exact fun hcontra => BisectOutcome.noConfusion hcontra
      · rw [if_neg h2]
        exact bisect_loop_no_fuel_exhaustion p run_tau s0 _ _ _ _ _ _ _ _
          (by omega) (by omega)
  · unfold thermodynamics_reionization_evolve_with_tau evolve_with_tau_oracle
    by_cases h1 : p.reionization_z_start_max -
        p.reionization_start_factor * p.reionization_width < 0
    · rw [if_pos h1, if_pos h1]
    · rw [if_neg h1, if_neg h1]
      by_cases h2 : run_tau s0 (p.reionization_z_start_max -
          p.reionization_start_factor * p.reionization_width) < p.tau_reio
      · rw [if_pos h2, if_pos h2]
      · rw [if_neg h2, if_neg h2]
        exact bisect_loop_eq_oracle p run_tau s0 _ _ _ _ _ _ _
  · intro z ts ti h
    unfold thermodynamics_reionization_evolve_with_tau at h
    by_cases h1 : p.reionization_z_start_max -
        p.reionization_start_factor * p.reionization_width < 0
    · rw [if_pos h1] at h
      exact BisectOutcome.noConfusion h
    · rw [if_neg h1] at h
      by_cases h2 : run_tau s0 (p.reionization_z_start_max -
          p.reionization_start_factor * p.reionization_width) < p.tau_reio
      · rw [if_pos h2] at h
        exact BisectOutcome.noConfusion h
      · rw [if_neg h2] at h
        exact bisect_loop_ok_converged p run_tau s0 _ _ _ _ _ _ _ _ _ _ _ h

/-- Concrete shooting parameters for the C4 witness. -/
def bisectPrmEx : BisectPrm ℚ := ⟨10, 1, 2, 0, 0, 3, 1/3, 10⟩

/-- Concrete trial-integration map for the C4 witness: optical depth half the
trial redshift, independent of the (unit) state vector. -/
def runTauEx : Unit → ℚ → ℚ := fun _ z => z/2

/-- Witness for C4 on a concrete rational run: the bisection starts from the
bracket `[0, 10 - 1*2] = [0, 8]`, converges in three guard evaluations to
`z_reio = 6` with final bracket `(tau_inf, tau_sup) = (3, 4)`, and the final
gap `4 - 3` meets the tolerance `3 * (1/3)`. -/
theorem C4_reionization_bisection_witness :
    (thermodynamics_reionization_evolve_with_tau bisectPrmEx runTauEx () =
      BisectOutcome.ok 6 4 3) ∧
    ((4:ℚ) - 3 ≤ bisectPrmEx.tau_reio * bisectPrmEx.reionization_optical_depth_tol) :=
  ⟨by norm_num [thermodynamics_reionization_evolve_with_tau, bisect_loop,
      bisectPrmEx, runTauEx, reio_start_of],
    (C4_reionization_bisection bisectPrmEx runTauEx ()).2.2 6 4 3
      (by norm_num [thermodynamics_reionization_evolve_with_tau, bisect_loop,
        bisectPrmEx, runTauEx, reio_start_of])⟩

end ClassThermo
